import Mathlib

/-!
Verification of the live log-tailing subsystem of `fastapi_logging_manager`
(`log_view_router.py` and the registry interface of `logger_manager.py`),
as a shallow embedding.

The filesystem is modelled as a map from paths to the optional list of lines
that Python's `file.readlines()` would produce (`none` = the path does not
exist); lenient decoding (`errors="replace"`) is below this abstraction level.
The logger registry is modelled as an association list in the registry's
internal enumeration order.
-/

/-- A line "contains" a token when the token's character sequence occurs as a
contiguous run inside the line's characters — Python's `tok in line`. -/
def hasToken (tok line : String) : Bool :=
  decide (tok.data <:+: line.data)

/-- Severity tag attached to a rendered line. -/
inductive Severity where
  | Error
  | Warning
  | Normal
deriving DecidableEq, Repr

/-- The severity classification performed inside `log_reader`'s loop
(`log_view_router.py` lines 34-40): `"ERROR"` first, then `"WARNING"`,
else normal. -/
def classify (line : String) : Severity :=
  if hasToken "ERROR" line then Severity.Error
  else if hasToken "WARNING" line then Severity.Warning
  else Severity.Normal

/-- The HTML wrapping applied for each severity tag. -/
def Severity.render (sev : Severity) (line : String) : String :=
  match sev with
  | Severity.Error => "<span class=\"text-red-400\">" ++ line ++ "</span><br/>"
  | Severity.Warning => "<span class=\"text-orange-300\">" ++ line ++ "</span><br/>"
  | Severity.Normal => line ++ "<br/>"

/-- Rendering done for a single raw line in `log_reader`'s loop body
(`log_view_router.py` lines 35-40). -/
def renderLine (line : String) : String :=
  if hasToken "ERROR" line then
    "<span class=\"text-red-400\">" ++ line ++ "</span><br/>"
  else if hasToken "WARNING" line then
    "<span class=\"text-orange-300\">" ++ line ++ "</span><br/>"
  else
    line ++ "<br/>"

/-- Filesystem state: each path maps to the list of lines `readlines()` would
return, or `none` when `os.path.exists` is false. -/
def FS : Type := String → Option (List String)

/-- Python's trailing slice `xs[-n:]` for a natural `n`: for `n = 0` the slice
is `xs[0:]`, i.e. the whole list; for `n ≥ 1` it is the last `min n xs.length`
elements. -/
def pySliceLastN (xs : List String) (n : Nat) : List String :=
  if n = 0 then xs else xs.drop (xs.length - n)

/-- `log_reader` (`log_view_router.py` lines 21-42): if the file exists, read
all its lines, take the Python slice `[-n:]`, and render each line with its
severity markup; otherwise return the empty list. -/
def log_reader (fs : FS) (log_file : String) (n : Nat) : List String :=
  match fs log_file with
  | none => []
  | some lines => (pySliceLastN lines n).map renderLine

-- Registry model -------------------------------------------------------------

/-- A logging handler: `getattr(handler, "baseFilename", None)` is `some path`
exactly when the handler carries a string `baseFilename` attribute. -/
structure Handler where
  baseFilename : Option String
deriving DecidableEq, Repr

/-- A logger object: its ordered list of handlers. -/
structure RegLogger where
  handlers : List Handler
deriving DecidableEq, Repr

/-- The registry mapping `logger_manager._loggers_with_logfiles`: logger names
to logger objects, as an association list in the registry's internal
enumeration order (Python dict iteration order). -/
def Registry : Type := List (String × RegLogger)

/-- Whether a handler passes the check
`isinstance(file_name, str) and file_name` of `log_view_router.py` line 57. -/
def isFileHandler (h : Handler) : Bool :=
  match h.baseFilename with
  | some fn => fn ≠ ""
  | none => false

/-- The handler scan of `_resolve_logfile_for_logger`
(`log_view_router.py` lines 55-58): return the first handler's nonempty
string `baseFilename`, else `none`. -/
def findFileHandler : List Handler → Option String
  | [] => none
  | h :: hs =>
    match h.baseFilename with
    | some fn => if fn = "" then findFileHandler hs else some fn
    | none => findFileHandler hs

/-- `_resolve_logfile_for_logger` (`log_view_router.py` lines 45-60):
`None`/empty name resolves to `none`; otherwise look the name up in the
registry and scan its handlers for the first backing file path. -/
def _resolve_logfile_for_logger (reg : Registry) (logger_name : Option String) :
    Option String :=
  match logger_name with
  | none => none
  | some name =>
    if name = "" then none
    else
      match List.lookup name reg with
      | none => none
      | some lg => findFileHandler lg.handlers

/-- Modelled from the spec: the property `logger_manager.loggers_with_logfiles`
is referenced by the router but its definition is not part of the given source;
per the spec it is "all logger names currently known to have at least one
resolvable backing file". -/
def loggers_with_logfiles (reg : Registry) : List String :=
  (reg.map Prod.fst).filter
    (fun name => (_resolve_logfile_for_logger reg (some name)).isSome)

/-- `get_logger_names` (`log_view_router.py` lines 93-95):
`sorted(logger_manager.loggers_with_logfiles)`. -/
def get_logger_names (reg : Registry) : List String :=
  List.insertionSort (· ≤ ·) (loggers_with_logfiles reg)

-- Websocket session model ----------------------------------------------------

/-- Logfile resolution performed at session start
(`log_view_router.py` lines 102-107): resolve the query parameter, falling
back to the logger named `"app"` when that fails. -/
def sessionLogfile (reg : Registry) (query_logger : Option String) :
    Option String :=
  match _resolve_logfile_for_logger reg query_logger with
  | some f => some f
  | none => _resolve_logfile_for_logger reg (some "app")

/-- The text pushed on one tick of the polling loop
(`log_view_router.py` lines 112-117): the fixed informational message when no
logfile is configured, else the concatenation of the last 30 rendered lines. -/
def tickMessage (fs : FS) (logfile : Option String) : String :=
  match logfile with
  | none => "No logfile configured for selected logger."
  | some f => String.join (log_reader fs f 30)

/-- Outcome of one `send_text` as decided by the transport. -/
inductive SendResult where
  | ok
  | disconnected
  | runtimeError
deriving DecidableEq, Repr

/-- How the `while True` loop of `websocket_endpoint_log` was left. -/
inductive LoopExit where
  | stillActive
  | disconnect
  | internalError
deriving DecidableEq, Repr

/-- The polling loop of `websocket_endpoint_log`
(`log_view_router.py` lines 109-122) run against a finite script of
transport outcomes, one per tick: each tick computes the message and attempts
the push; `WebSocketDisconnect` ends the loop silently, any other exception is
caught by the broad handler; an exhausted script means the session is still in
its `Active` loop. Returns the successfully delivered messages and the way the
loop was left. -/
def loopTicks (fs : FS) (logfile : Option String) :
    List SendResult → List String × LoopExit
  | [] => ([], LoopExit.stillActive)
  | ev :: rest =>
    match ev with
    | SendResult.ok =>
      let out := loopTicks fs logfile rest
      (tickMessage fs logfile :: out.1, out.2)
    | SendResult.disconnected => ([], LoopExit.disconnect)
    | SendResult.runtimeError => ([], LoopExit.internalError)

/-- `websocket_endpoint_log` (`log_view_router.py` lines 98-130) up to the
`finally` block: resolve the logfile (with `"app"` fallback) and run the
polling loop over the given transport script. -/
def websocket_endpoint_log (reg : Registry) (fs : FS)
    (query_logger : Option String) (evs : List SendResult) :
    List String × LoopExit :=
  loopTicks fs (sessionLogfile reg query_logger) evs

-- Teardown model -------------------------------------------------------------

/-- Starlette websocket client states relevant to the `finally` block. -/
inductive WSState where
  | CONNECTING
  | CONNECTED
  | DISCONNECTED
deriving DecidableEq, Repr

/-- Transport handle: the observable client state and whether a close frame
was already sent. -/
structure WS where
  client_state : WSState
  close_sent : Bool
deriving DecidableEq, Repr

/-- The exceptions `websocket.close()` can raise here: starlette raises
`RuntimeError` ("Cannot call send once a close message has been sent.") when
the close frame was already sent. -/
inductive PyErr where
  | runtimeError
deriving DecidableEq, Repr

/-- `websocket.close()`: fails with `RuntimeError` after a close frame has
already been sent, otherwise transitions the transport to its terminal
state. -/
def closeWS (ws : WS) : Except PyErr WS :=
  if ws.close_sent then Except.error PyErr.runtimeError
  else Except.ok { client_state := WSState.DISCONNECTED, close_sent := true }

/-- The `finally` block of `websocket_endpoint_log`
(`log_view_router.py` lines 123-130): close only when the client state is not
`DISCONNECTED`, and swallow a `RuntimeError` from the close attempt.
The result is `Except.error` exactly when an exception would propagate out of
the teardown. -/
def finallyClose (ws : WS) : Except PyErr WS :=
  if ws.client_state ≠ WSState.DISCONNECTED then
    match closeWS ws with
    | Except.ok ws' => Except.ok ws'
    | Except.error PyErr.runtimeError => Except.ok ws
  else
    Except.ok ws

-- Helper lemmas ---------------------------------------------------------------

theorem pySliceLastN_of_pos (xs : List String) (n : Nat) (hn : 1 ≤ n) :
    pySliceLastN xs n = xs.drop (xs.length - n) := by
  unfold pySliceLastN
  rw [if_neg (by omega)]

theorem findFileHandler_eq_none (hs : List Handler)
    (hall : ∀ h ∈ hs, isFileHandler h = false) :
    findFileHandler hs = none := by
  induction hs with
  | nil => rfl
  | cons h hs ih =>
    have hh := hall h (List.mem_cons_self h hs)
    have hrest : ∀ h' ∈ hs, isFileHandler h' = false :=
      fun h' hm => hall h' (List.mem_cons_of_mem h hm)
    have ihr := ih hrest
    cases hfn : h.baseFilename with
    | none => simp [findFileHandler, hfn, ihr]
    | some fn =>
      have hfe : fn = "" := by simpa [isFileHandler, hfn] using hh
      simp [findFileHandler, hfn, hfe, ihr]

theorem findFileHandler_first (pre : List Handler) (h : Handler)
    (post : List Handler) (fn : String)
    (hpre : ∀ h' ∈ pre, isFileHandler h' = false)
    (hfn : h.baseFilename = some fn) (hne : fn ≠ "") :
    findFileHandler (pre ++ h :: post) = some fn := by
  induction pre with
  | nil =>
    simp [findFileHandler, hfn, hne]
  | cons p pre ih =>
    have hp := hpre p (List.mem_cons_self p pre)
    have hrest : ∀ h' ∈ pre, isFileHandler h' = false :=
      fun h' hm => hpre h' (List.mem_cons_of_mem p hm)
    have ihr := ih hrest
    cases hfp : p.baseFilename with
    | none => simp [findFileHandler, hfp, ihr]
    | some g =>
      have hg : g = "" := by simpa [isFileHandler, hfp] using hp
      simp [findFileHandler, hfp, hg, ihr]

theorem loopTicks_all_ok (fs : FS) (lf : Option String) (evs : List SendResult)
    (hok : ∀ ev ∈ evs, ev = SendResult.ok) :
    loopTicks fs lf evs =
      (List.replicate evs.length (tickMessage fs lf), LoopExit.stillActive) := by
  induction evs with
  | nil => rfl
  | cons ev evs ih =>
    have he := hok ev (List.mem_cons_self ev evs)
    have hrest : ∀ e ∈ evs, e = SendResult.ok :=
      fun e hm => hok e (List.mem_cons_of_mem ev hm)
    subst he
    unfold loopTicks
    rw [ih hrest]
    rfl

-- Concrete inputs used by witnesses and counterexamples -----------------------

/-- A one-line log file at `"a.log"`, nothing else on disk. -/
def fsOne : FS := fun p => if p = "a.log" then some ["L1"] else none

/-- Same content at `"a.log"` as `fsOne`, but other paths differ. -/
def fsOneAlt : FS := fun p => if p = "a.log" then some ["L1"] else some ["other"]

/-- A registry with one logger `"app"` whose second handler is the file
handler. -/
def regW : Registry :=
  [("app", { handlers := [{ baseFilename := none }, { baseFilename := some "app.log" }] })]

-- C1 -------------------------------------------------------------------------

/-- C1 (counterexample): as stated, for "every line count n" the result has at
most `n` elements — false at `n = 0` on an existing one-line file, where the
Python slice `[-0:]` selects the whole list. -/
theorem log_reader_window_bound_cex :
    fsOne "a.log" = some ["L1"] ∧ ¬ (log_reader fsOne "a.log" 0).length ≤ 0 := by
  exact ⟨rfl, by decide⟩

/-- C1 (amended: `n ≥ 1`): for an existing file and a positive line count `n`,
`log_reader` returns at most `n` rendered lines — exactly
`min n lines.length` of them — as a suffix of the whole rendered file; when
the file has fewer than `n` lines it returns all of them in order, and when it
has at least `n` lines it returns exactly the last `n`, oldest-first. -/
theorem log_reader_tail_window (fs : FS) (path : String) (n : Nat)
    (lines : List String) (hex : fs path = some lines) (hn : 1 ≤ n) :
    (log_reader fs path n).length = min n lines.length ∧
    (log_reader fs path n).length ≤ n ∧
    log_reader fs path n <:+ lines.map renderLine ∧
    (lines.length < n → log_reader fs path n = lines.map renderLine) ∧
    (n ≤ lines.length →
      log_reader fs path n = (lines.drop (lines.length - n)).map renderLine) := by
  unfold log_reader
  rw [hex]
  simp only [pySliceLastN_of_pos lines n hn]
  refine ⟨?_, ?_, ?_, ?_, ?_⟩
  · rw [List.length_map, List.length_drop]
    omega
  · rw [List.length_map, List.length_drop]
    omega
  · exact (List.drop_suffix (lines.length - n) lines).map renderLine
  · intro hlt
    have : lines.length - n = 0 := by omega
    rw [this, List.drop_zero]
  · intro _
    trivial

/-- C1 (witness): on a one-line file with `n = 5`, the window is the whole
file. -/
theorem log_reader_tail_window_witness :
    (log_reader fsOne "a.log" 5).length = min 5 1 := by
  have h := log_reader_tail_window fsOne "a.log" 5 ["L1"] rfl (by decide)
  simpa using h.1

-- C2 -------------------------------------------------------------------------

/-- C2: when the path does not exist, `log_reader` returns the empty list for
every `n`; in this total model no exception path exists (the existence check
guards the read). -/
theorem log_reader_missing_file (fs : FS) (path : String) (n : Nat)
    (h : fs path = none) : log_reader fs path n = [] := by
  unfold log_reader
  rw [h]

/-- C2 (witness): a path absent from the concrete filesystem yields `[]`. -/
theorem log_reader_missing_file_witness : log_reader fsOne "absent.log" 5 = [] :=
  log_reader_missing_file fsOne "absent.log" 5 (by decide)

-- C9 -------------------------------------------------------------------------

/-- C9: `log_reader` is a function of the tailed file's current content and
`n` alone — two calls against filesystem states agreeing on that path give
identical results, so repeated calls with no intervening change coincide (no
cursor or state persists between calls). -/
theorem log_reader_deterministic (fs fs' : FS) (path : String) (n : Nat)
    (h : fs path = fs' path) :
    log_reader fs path n = log_reader fs' path n := by
  unfold log_reader
  rw [h]

/-- C9 (witness): two filesystems agreeing only on `"a.log"` give the same
tail there. -/
theorem log_reader_deterministic_witness :
    log_reader fsOne "a.log" 3 = log_reader fsOneAlt "a.log" 3 :=
  log_reader_deterministic fsOne fsOneAlt "a.log" 3 (by decide)

-- C10 ------------------------------------------------------------------------

/-- C10: with `n = 0` on an existing non-empty file, the Python slice `[-0:]`
is the whole list, so `log_reader` returns all of the file's lines rendered —
a non-empty result. -/
theorem log_reader_zero_returns_all (fs : FS) (path : String)
    (lines : List String) (hex : fs path = some lines) (hne : lines ≠ []) :
    log_reader fs path 0 = lines.map renderLine ∧ log_reader fs path 0 ≠ [] := by
  unfold log_reader pySliceLastN
  rw [hex]
  simp [List.map_eq_nil_iff, hne]

/-- C10 (witness): the one-line file with `n = 0` returns its single rendered
line. -/
theorem log_reader_zero_returns_all_witness :
    log_reader fsOne "a.log" 0 = ["L1"].map renderLine ∧
    log_reader fsOne "a.log" 0 ≠ [] :=
  log_reader_zero_returns_all fsOne "a.log" ["L1"] (by decide) (by decide)

-- C3 -------------------------------------------------------------------------

/-- C3: the tailer classifies a line Error exactly when `"ERROR"` occurs as a
case-sensitive substring; Warning exactly when `"WARNING"` occurs and
`"ERROR"` does not (so Error takes precedence when both occur); Normal
otherwise — and `log_reader`'s per-line rendering is exactly the markup for
that classification. -/
theorem classify_spec (line : String) :
    (classify line = Severity.Error ↔ "ERROR".data <:+: line.data) ∧
    (classify line = Severity.Warning ↔
      (¬ "ERROR".data <:+: line.data ∧ "WARNING".data <:+: line.data)) ∧
    (classify line = Severity.Normal ↔
      (¬ "ERROR".data <:+: line.data ∧ ¬ "WARNING".data <:+: line.data)) ∧
    renderLine line = (classify line).render line := by
  unfold classify renderLine hasToken
  by_cases he : "ERROR".data <:+: line.data <;>
    by_cases hw : "WARNING".data <:+: line.data <;>
      simp [he, hw, Severity.render]

/-- C3 (witness): a line containing both tokens classifies as Error. -/
theorem classify_spec_witness :
    classify "x ERROR then WARNING y" = Severity.Error :=
  (classify_spec "x ERROR then WARNING y").1.mpr (by decide)

-- C4 -------------------------------------------------------------------------

/-- C4: resolving a logger name returns `none` for an absent name, an unknown
name, or a logger none of whose handlers carries a nonempty string
`baseFilename`; and when the handler list splits as `pre ++ h :: post` with no
file-producing handler in `pre` and `h` carrying file path `fn`, resolution
returns `some fn` — the first file path in enumeration order
(first-match-wins). -/
theorem resolve_backing_file_spec (reg : Registry) (name : String) :
    _resolve_logfile_for_logger reg none = none ∧
    (List.lookup name reg = none →
      _resolve_logfile_for_logger reg (some name) = none) ∧
    (∀ lg, List.lookup name reg = some lg →
      (∀ h ∈ lg.handlers, isFileHandler h = false) →
      _resolve_logfile_for_logger reg (some name) = none) ∧
    (∀ lg pre h post fn, name ≠ "" → List.lookup name reg = some lg →
      lg.handlers = pre ++ h :: post →
      (∀ h' ∈ pre, isFileHandler h' = false) →
      h.baseFilename = some fn → fn ≠ "" →
      _resolve_logfile_for_logger reg (some name) = some fn) := by
  refine ⟨rfl, ?_, ?_, ?_⟩
  · intro hl
    unfold _resolve_logfile_for_logger
    by_cases hn : name = ""
    · simp [hn]
    · simp [hn, hl]
  · intro lg hl hall
    unfold _resolve_logfile_for_logger
    by_cases hn : name = ""
    · simp [hn]
    · simp [hn, hl, findFileHandler_eq_none lg.handlers hall]
  · intro lg pre h post fn hn hl hh hpre hfn hfe
    unfold _resolve_logfile_for_logger
    simp only [hn, hl, if_neg hn]
    rw [hh]
    exact findFileHandler_first pre h post fn hpre hfn hfe

/-- C4 (witness): in a registry whose `"app"` logger has a console handler
first and a file handler second, resolution returns the file handler's path;
at an unknown name it returns `none`. -/
theorem resolve_backing_file_spec_witness :
    _resolve_logfile_for_logger regW (some "app") = some "app.log" :=
  (resolve_backing_file_spec regW "app").2.2.2
    { handlers := [{ baseFilename := none }, { baseFilename := some "app.log" }] }
    [{ baseFilename := none }] { baseFilename := some "app.log" } [] "app.log"
    (by decide) (by decide) rfl (by decide) rfl (by decide)

-- C5 -------------------------------------------------------------------------

/-- C5: the name-listing endpoint output is sorted, and contains exactly the
registry names whose resolution yields a backing file; when no name resolves
it is the empty list. -/
theorem get_logger_names_spec (reg : Registry) :
    List.Sorted (· ≤ ·) (get_logger_names reg) ∧
    (∀ name, name ∈ get_logger_names reg ↔
      (name ∈ reg.map Prod.fst ∧
        (_resolve_logfile_for_logger reg (some name)).isSome = true)) ∧
    ((∀ name, _resolve_logfile_for_logger reg (some name) = none) →
      get_logger_names reg = []) := by
  have hmem : ∀ name, name ∈ get_logger_names reg ↔
      (name ∈ reg.map Prod.fst ∧
        (_resolve_logfile_for_logger reg (some name)).isSome = true) := by
    intro name
    unfold get_logger_names loggers_with_logfiles
    rw [(List.perm_insertionSort _ _).mem_iff, List.mem_filter]
  refine ⟨List.sorted_insertionSort _ _, hmem, ?_⟩
  intro hall
  rw [List.eq_nil_iff_forall_not_mem]
  intro name hm
  have h2 := ((hmem name).mp hm).2
  rw [hall name] at h2
  simp at h2

/-- C5 (witness): the empty registry — in particular one with no
file-producing logger — lists no names. -/
theorem get_logger_names_spec_witness : get_logger_names ([] : Registry) = [] :=
  (get_logger_names_spec ([] : Registry)).2.2
    (fun name => by simp [_resolve_logfile_for_logger, List.lookup])

-- C6 -------------------------------------------------------------------------

/-- C6: when neither the requested name nor the `"app"` fallback resolves, the
session's logfile is `none` and every tick on which the transport accepts the
push delivers the fixed informational message; with only successful pushes the
loop is still in its `Active` state afterwards (it never terminates merely
because no file is configured). -/
theorem session_no_logfile_ticks (reg : Registry) (fs : FS)
    (query : Option String) (evs : List SendResult)
    (hq : _resolve_logfile_for_logger reg query = none)
    (happ : _resolve_logfile_for_logger reg (some "app") = none)
    (hok : ∀ ev ∈ evs, ev = SendResult.ok) :
    websocket_endpoint_log reg fs query evs =
      (List.replicate evs.length "No logfile configured for selected logger.",
        LoopExit.stillActive) := by
  have hsl : sessionLogfile reg query = none := by
    unfold sessionLogfile
    rw [hq, happ]
  unfold websocket_endpoint_log
  rw [hsl, loopTicks_all_ok fs none evs hok]
  rfl

/-- C6 (witness): two ticks against an empty registry with requested name
`"nonexistent"` both deliver the fixed message and leave the loop active. -/
theorem session_no_logfile_ticks_witness :
    websocket_endpoint_log ([] : Registry) fsOne (some "nonexistent")
        [SendResult.ok, SendResult.ok] =
      (List.replicate 2 "No logfile configured for selected logger.",
        LoopExit.stillActive) :=
  session_no_logfile_ticks ([] : Registry) fsOne (some "nonexistent")
    [SendResult.ok, SendResult.ok] (by decide) (by decide) (by decide)

-- C7 -------------------------------------------------------------------------

/-- C7: when the requested name does not resolve but `"app"` resolves to file
`f`, the session enters the loop with logfile `f`, and every successful tick
pushes the joined 30-line tail of `f`. -/
theorem session_fallback_to_app (reg : Registry) (fs : FS)
    (query : Option String) (f : String)
    (hq : _resolve_logfile_for_logger reg query = none)
    (happ : _resolve_logfile_for_logger reg (some "app") = some f) :
    sessionLogfile reg query = some f ∧
    (∀ evs, (∀ ev ∈ evs, ev = SendResult.ok) →
      websocket_endpoint_log reg fs query evs =
        (List.replicate evs.length (String.join (log_reader fs f 30)),
          LoopExit.stillActive)) := by
  have hsl : sessionLogfile reg query = some f := by
    unfold sessionLogfile
    rw [hq, happ]
  refine ⟨hsl, ?_⟩
  intro evs hok
  unfold websocket_endpoint_log
  rw [hsl, loopTicks_all_ok fs (some f) evs hok]
  rfl

/-- C7 (witness): requesting the unknown name `"zzz"` against `regW` falls
back to the `"app"` logger's file. -/
theorem session_fallback_to_app_witness :
    sessionLogfile regW (some "zzz") = some "app.log" :=
  (session_fallback_to_app regW fsOne (some "zzz") "app.log"
    (by decide) (by decide)).1

-- C8 -------------------------------------------------------------------------

/-- C8: the teardown never lets an exception propagate (its result is always
`Except.ok`), and when the transport is already terminal — peer disconnected
or close frame already sent — the close attempt is a no-op leaving the
transport unchanged. -/
theorem finally_close_no_raise (ws : WS) :
    (∃ ws', finallyClose ws = Except.ok ws') ∧
    (ws.client_state = WSState.DISCONNECTED ∨ ws.close_sent = true →
      finallyClose ws = Except.ok ws) := by
  constructor
  · unfold finallyClose closeWS
    by_cases hd : ws.client_state = WSState.DISCONNECTED
    · exact ⟨ws, by simp [hd]⟩
    · by_cases hc : ws.close_sent
      · exact ⟨ws, by simp [hd, hc]⟩
      · exact ⟨⟨WSState.DISCONNECTED, true⟩, by simp [hd, hc]⟩
  · intro hterm
    unfold finallyClose closeWS
    rcases hterm with hd | hc
    · simp [hd]
    · by_cases hd : ws.client_state = WSState.DISCONNECTED
      · simp [hd]
      · simp [hd, hc]

/-- C8 (witness): a close-after-close (close frame already sent, state not yet
`DISCONNECTED`) is suppressed as a no-op. -/
theorem finally_close_no_raise_witness :
    finallyClose { client_state := WSState.CONNECTED, close_sent := true } =
      Except.ok { client_state := WSState.CONNECTED, close_sent := true } :=
  (finally_close_no_raise
    { client_state := WSState.CONNECTED, close_sent := true }).2 (Or.inr rfl)
